import Mathlib

/-!
Verification development for the reconciliation / layout-caching / primitive-extraction
core of the kayak_ui repository.  The definitions below are shallow embeddings of the
functions in src/context.rs and src/calculate_nodes.rs; the theorems settle the frozen
claims about those functions.

Conventions.  Widget entities are identified by natural numbers (bevy Entity indices).
Floating point opacity and size values are modelled as rationals; the source's f32
comparisons involve no rounding at the values used here.  The MAX_OPACITY_LAYERS
constant lives in src/render/mod.rs, which is not part of the packaged sources, so the
extraction walk takes the maximum as an explicit parameter.
-/

namespace Kayak

/-! ## Primitive extraction (recurse_node_tree_to_build_primitives2, context.rs 408-591) -/

mutual
/-- Render-node snapshot as consumed by the extraction walk: entity id, opacity,
explicit z, whether the layout cache holds a rect for it, whether its resolved
styles emit a quad when extracted (Modelled from the spec: `resolved_styles.extract`
lives in the styles module, not packaged; Visual or Text nodes emit a quad, Empty or
Layout-only nodes do not), an optional clip region id, and the ordered children. -/
inductive KNode where
  | node (id : Nat) (opacity : ℚ) (z : ℚ) (hasLayout : Bool) (emitsQuad : Bool)
      (clip : Option Nat) (children : KForest)

/-- Ordered list of child render nodes. -/
inductive KForest where
  | nil
  | cons (head : KNode) (tail : KForest)
end

/-- Quads pushed into ExtractedQuads, in emission order.  (Modelled from the spec:
the ExtractedQuads layer stack lives in the render pipeline module, not packaged;
we record the flat emission sequence, which is what the claims are about.)
`widget i l` is a quad emitted by `resolved_styles.extract` for entity `i` while
opacity layer `l` is current; `opacityLayer l` is the UIQuadType::OpacityLayer marker;
`drawOpacityLayer l o` is the UIQuadType::DrawOpacityLayer composite; `clipReset c`
is the copy of the parent clip re-pushed between children (context.rs 515-527). -/
inductive Prim where
  | widget (id : Nat) (layer : Nat)
  | opacityLayer (layer : Nat)
  | drawOpacityLayer (layer : Nat) (opacity : ℚ)
  | clipReset (clipId : Nat)
deriving DecidableEq, Repr

/-- Update of the threaded prev_clip reference (context.rs 477-480): the node's new
clip if it has one, otherwise the incoming previous clip. -/
def updClip (clip prevClip : Option Nat) : Option Nat :=
  match clip with
  | some c => some c
  | none => prevClip

/-- Clip quad re-pushed between children (context.rs 516-526): a copy of the parent
clip whenever both the parent clip and the child-updated prev clip are present. -/
def clipResetPrims (parentClip childClip : Option Nat) : List Prim :=
  match parentClip, childClip with
  | some pc, some _ => [Prim.clipReset pc]
  | _, _ => []

mutual
/-- Shallow embedding of recurse_node_tree_to_build_primitives2 (context.rs 408-591).
Arguments after the node: prev_clip, current_opacity_layer, total_opacity_layers;
the result is (emitted quads, prev_clip on exit, total_opacity_layers on exit).
Branches, in source order: opacity below 0.001 returns with nothing emitted (429);
a missing layout rect returns with nothing emitted (433-440); styles.extract emits
the node's own quad at the *incoming* opacity layer (442-454); if opacity is below
one and total+1 has reached the maximum the function returns right after the self
quads (458-461), otherwise the counter is incremented, an OpacityLayer marker is
pushed and both the current layer and the forest's starting total become total+1
(463-473); children are walked threading prev_clip and the running total (485-529);
prev_clip is restored to the parent clip (538); an allocated layer finally emits its
DrawOpacityLayer composite (542-564). -/
def recurse_node_tree_to_build_primitives2 (maxOpacityLayers : Nat) :
    KNode → Option Nat → Nat → Nat → List Prim × Option Nat × Nat
  | KNode.node i o _z hasLayout emits clip cs, prevClip, curLayer, totalLayers =>
    if o < (1 : ℚ)/1000 then ([], prevClip, totalLayers)
    else if hasLayout = false then ([], prevClip, totalLayers)
    else if o < 1 then
      if maxOpacityLayers ≤ totalLayers + 1 then
        ((if emits then [Prim.widget i curLayer] else []), prevClip, totalLayers)
      else
        ((if emits then [Prim.widget i curLayer] else [])
            ++ [Prim.opacityLayer (totalLayers + 1)]
            ++ (recurse_children_to_build_primitives2 maxOpacityLayers cs
                (updClip clip prevClip) (totalLayers + 1) (totalLayers + 1)
                (updClip clip prevClip)).1
            ++ [Prim.drawOpacityLayer (totalLayers + 1) o],
          updClip clip prevClip,
          (recurse_children_to_build_primitives2 maxOpacityLayers cs
            (updClip clip prevClip) (totalLayers + 1) (totalLayers + 1)
            (updClip clip prevClip)).2.2)
    else
      ((if emits then [Prim.widget i curLayer] else [])
          ++ (recurse_children_to_build_primitives2 maxOpacityLayers cs
              (updClip clip prevClip) curLayer totalLayers (updClip clip prevClip)).1,
        updClip clip prevClip,
        (recurse_children_to_build_primitives2 maxOpacityLayers cs
          (updClip clip prevClip) curLayer totalLayers (updClip clip prevClip)).2.2)

/-- The children loop of recurse_node_tree_to_build_primitives2 (context.rs 485-529):
each child is walked with the threaded prev_clip and running total; between children a
copy of the parent clip is re-pushed; `total_opacity_layers` is replaced by the value
the child returned (510). -/
def recurse_children_to_build_primitives2 (maxOpacityLayers : Nat) :
    KForest → Option Nat → Nat → Nat → Option Nat → List Prim × Option Nat × Nat
  | KForest.nil, prevClip, _cur, total, _parentClip => ([], prevClip, total)
  | KForest.cons c rest, prevClip, cur, total, parentClip =>
    ((recurse_node_tree_to_build_primitives2 maxOpacityLayers c prevClip cur total).1
        ++ clipResetPrims parentClip
            (recurse_node_tree_to_build_primitives2 maxOpacityLayers c prevClip cur total).2.1
        ++ (recurse_children_to_build_primitives2 maxOpacityLayers rest
            (recurse_node_tree_to_build_primitives2 maxOpacityLayers c prevClip cur total).2.1
            cur
            (recurse_node_tree_to_build_primitives2 maxOpacityLayers c prevClip cur total).2.2
            parentClip).1,
      (recurse_children_to_build_primitives2 maxOpacityLayers rest
        (recurse_node_tree_to_build_primitives2 maxOpacityLayers c prevClip cur total).2.1
        cur
        (recurse_node_tree_to_build_primitives2 maxOpacityLayers c prevClip cur total).2.2
        parentClip).2.1,
      (recurse_children_to_build_primitives2 maxOpacityLayers rest
        (recurse_node_tree_to_build_primitives2 maxOpacityLayers c prevClip cur total).2.1
        cur
        (recurse_node_tree_to_build_primitives2 maxOpacityLayers c prevClip cur total).2.2
        parentClip).2.2)
end

/-- Opacity of a render node. -/
def KNode.opacity : KNode → ℚ
  | KNode.node _ o _ _ _ _ _ => o

/-- Indices of the OpacityLayer markers in a quad list, in emission order. -/
def layersOf (ps : List Prim) : List Nat :=
  ps.filterMap fun p =>
    match p with
    | Prim.opacityLayer l => some l
    | _ => none

/-- Entity ids of the extract-emitted widget quads in a quad list. -/
def widgetsOf (ps : List Prim) : List Nat :=
  ps.filterMap fun p =>
    match p with
    | Prim.widget i _ => some i
    | _ => none

/-- A visual node with layout, no clip, and explicit opacity. -/
def exNode (i : Nat) (o : ℚ) (cs : KForest) : KNode :=
  KNode.node i o 0 true true none cs

/-- Concrete frame for the C1 counterexample: an opaque root 0 with two translucent
sibling subtrees, A = node 1 (opacity 1/2, opaque child 2) and B = node 3
(opacity 1/2, opaque child 4).  No translucent nesting is deeper than one layer. -/
def c1Tree : KNode :=
  exNode 0 1
    (KForest.cons (exNode 1 (1/2) (KForest.cons (exNode 2 1 KForest.nil) KForest.nil))
      (KForest.cons (exNode 3 (1/2) (KForest.cons (exNode 4 1 KForest.nil) KForest.nil))
        KForest.nil))

/-- Children of the node used in the C1 amended-claim witness. -/
def c1wForest : KForest := KForest.cons (exNode 8 1 KForest.nil) KForest.nil

/-- Fully transparent node with an opaque child, for the C9 witness. -/
def c9Node : KNode :=
  KNode.node 5 0 0 true true none (KForest.cons (exNode 6 1 KForest.nil) KForest.nil)

/-! ## Scheduler walk (update_widgets / update_widget, context.rs 874-1465) -/

mutual
/-- Snapshot of a widget subtree as reachable through the shared Tree at walk time:
entity id and current children. -/
inductive WTree where
  | wnode (id : Nat) (children : WForest)

/-- Ordered list of widget subtrees. -/
inductive WForest where
  | nil
  | cons (head : WTree) (tail : WForest)
end

/-- Observable effects of one scheduler walk, in order: `updated i b` records that the
widget's update system ran and returned `b`; `rendered i` records that its render
system ran; `diffApplied i` records that its child diff was computed and merged into
the tree (the `should_update_children` block, context.rs 930-1205). -/
inductive WalkEvent where
  | updated (id : Nat) (changed : Bool)
  | rendered (id : Nat)
  | diffApplied (id : Nat)
deriving DecidableEq, Repr

mutual
/-- Shallow embedding of one iteration of the update_widgets loop body together with
update_widget (context.rs 892-1291 and 1294-1465), as an event trace.  `pred i` is the
result of the widget's registered update system, `renderCh i` the boolean returned by
its render system.  If the update system returns false, update_widget returns early
with `should_update_children = false` (1408-1410), so no render and no diff happen for
this node; the walk then reads the node's current children from the tree and recurses
into them unconditionally (1206-1231; the guard on should_update_children is commented
out in the source). -/
def update_widget_and_descend (pred renderCh : Nat → Bool) : WTree → List WalkEvent
  | WTree.wnode i cs =>
    (if pred i then
      WalkEvent.updated i true :: WalkEvent.rendered i ::
        (if renderCh i then [WalkEvent.diffApplied i] else [])
    else [WalkEvent.updated i false])
    ++ update_widgets pred renderCh cs

/-- The update_widgets loop (context.rs 892): processes each entity of the list in
order via update_widget_and_descend. -/
def update_widgets (pred renderCh : Nat → Bool) : WForest → List WalkEvent
  | WForest.nil => []
  | WForest.cons t r =>
    update_widget_and_descend pred renderCh t ++ update_widgets pred renderCh r
end

/-- Update predicate for the C2 scenario: only widget 1 reports changed. -/
def c2Pred : Nat → Bool := fun i => i == 1

/-- Render systems that always request a child update. -/
def renderChAll : Nat → Bool := fun _ => true

/-- Children of the C2 root: the single widget 1. -/
def c2Forest : WForest := WForest.cons (WTree.wnode 1 WForest.nil) WForest.nil

/-- C2 scenario tree: root widget 0 (unchanged) with child widget 1 (changed). -/
def c2Tree : WTree := WTree.wnode 0 c2Forest

/-! ## Tree helpers shared by the layout and deletion embeddings -/

/-- Root entity id of a subtree. -/
def rootId : WTree → Nat
  | WTree.wnode i _ => i

mutual
/-- All entity ids of a subtree, preorder (Tree::down_iter_at with include_self). -/
def subtreeIds : WTree → List Nat
  | WTree.wnode i cs => i :: subtreeIdsF cs

/-- All entity ids of a forest, preorder. -/
def subtreeIdsF : WForest → List Nat
  | WForest.nil => []
  | WForest.cons t r => subtreeIds t ++ subtreeIdsF r
end

/-- Ids of the direct children of a forest's roots (Tree::child_iter order). -/
def childIdsF : WForest → List Nat
  | WForest.nil => []
  | WForest.cons t r => rootId t :: childIdsF r

/-- Ids of the direct children of a node (Tree::child_iter). -/
def childIds : WTree → List Nat
  | WTree.wnode _ cs => childIdsF cs

mutual
/-- Locates the subtree rooted at a given entity id, if present. -/
def findSubtree : WTree → Nat → Option WTree
  | WTree.wnode i cs, n =>
    if i = n then some (WTree.wnode i cs) else findSubtreeF cs n

/-- Locates a subtree within a forest. -/
def findSubtreeF : WForest → Nat → Option WTree
  | WForest.nil, _ => none
  | WForest.cons t r, n =>
    match findSubtree t n with
    | some u => some u
    | none => findSubtreeF r n
end

mutual
/-- Parent lookup in the main tree (Tree::parent). -/
def treeParentOf : WTree → Nat → Option Nat
  | WTree.wnode i cs, n =>
    if decide (n ∈ childIdsF cs) then some i else treeParentOfF cs n

/-- Parent lookup within a forest. -/
def treeParentOfF : WForest → Nat → Option Nat
  | WForest.nil, _ => none
  | WForest.cons t r, n =>
    match treeParentOf t n with
    | some p => some p
    | none => treeParentOfF r n
end

mutual
/-- All subtrees of a tree, preorder. -/
def allSubtrees : WTree → List WTree
  | WTree.wnode i cs => WTree.wnode i cs :: allSubtreesF cs

/-- All subtrees of a forest, preorder. -/
def allSubtreesF : WForest → List WTree
  | WForest.nil => []
  | WForest.cons t r => allSubtrees t ++ allSubtreesF r
end

/-- Strict descendants of the node with the given id, or the empty list when the id
is not in the tree. -/
def descendantsOf (t : WTree) (anc : Nat) : List Nat :=
  match findSubtree t anc with
  | some (WTree.wnode _ cs) => subtreeIdsF cs
  | none => []

/-! ## Dirty marking after layout (calculate_layout, calculate_nodes.rs 218-247) -/

/-- Shallow embedding of the marking loop of calculate_layout (calculate_nodes.rs
233-242): for every entity whose geometry-changed set is non-empty (the input
predicate; the external morphorm solver records a non-empty set exactly when the
node's computed Rect changed), every entity produced by tree.child_iter — the node's
direct children — receives a DirtyNode marker.  The result is the list of entities
marked dirty. -/
def calculate_layout_dirty_marks (t : WTree) (geometryChanged : Nat → Bool) : List Nat :=
  (allSubtrees t).foldr
    (fun n acc => if geometryChanged (rootId n) then childIds n ++ acc else acc) []

/-- C3 scenario: chain 0 → 1 → 2. -/
def c3Tree : WTree :=
  WTree.wnode 0 (WForest.cons (WTree.wnode 1 (WForest.cons (WTree.wnode 2 WForest.nil)
    WForest.nil)) WForest.nil)

/-- C3 geometry-changed predicate: only the root's Rect changed. -/
def c3gc : Nat → Bool := fun i => i == 0

/-! ## Deleted-change processing (update_widgets, context.rs 1073-1173) -/

/-- The secondary order tree: parent pointer and ordered children per entity
(only direct relationships are consulted by the deletion logic). -/
structure OrderTree where
  parentO : Nat → Option Nat
  childrenO : Nat → List Nat

/-- Result of processing one Change::Deleted entry: the (parent, entity) pairs pushed
onto despawn_list (1111-1113), whether order_tree.remove ran for the entity
(1115-1117), and the live entity set after the despawn loop (1128-1173) despawned the
listed entities. -/
structure DeletedOutcome where
  despawnList : List (Nat × Nat)
  orderRemoved : Bool
  live : List Nat
deriving DecidableEq, Repr

/-- Entity ids visited by tree.down_iter_at(s, true): the whole subtree of s in the
main tree, or nothing when s is not in the tree. -/
def downIterIds (mt : WTree) (s : Nat) : List Nat :=
  match findSubtree mt s with
  | some t => subtreeIds t
  | none => []

/-- The suppression check of the Deleted branch (context.rs 1079-1100): walk the
order-tree siblings of the deleted entity (children of its order-tree parent), and for
each sibling the whole main-tree subtree below it; if any visited entity's KChildren
component contains the deleted entity, deletion is suppressed (`continue 'outer`). -/
def deleted_still_referenced (mt : WTree) (ot : OrderTree) (kch : Nat → List Nat)
    (e : Nat) : Bool :=
  match ot.parentO e with
  | none => false
  | some p =>
    (ot.childrenO p).any fun s =>
      (downIterIds mt s).any fun c => decide (e ∈ kch c)

/-- Shallow embedding of the Change::Deleted branch of update_widgets (context.rs
1073-1118) together with the despawn loop (1128-1173): when the reference check fires
nothing happens to the entity; otherwise it is pushed on despawn_list when it has a
main-tree parent (1111-1113), removed from the order tree (1115-1117), and despawned
by the loop, leaving the live set without it.  (Modelled from the spec: tree.merge,
from the unpackaged tree module, applies the Deleted edit to the main Tree.) -/
def process_deleted_change (mt : WTree) (ot : OrderTree) (kch : Nat → List Nat)
    (live : List Nat) (e : Nat) : DeletedOutcome :=
  if deleted_still_referenced mt ot kch e then
    { despawnList := [], orderRemoved := false, live := live }
  else
    match treeParentOf mt e with
    | some p =>
      { despawnList := [(p, e)], orderRemoved := true
      , live := live.filter fun x => !(x == e) }
    | none => { despawnList := [], orderRemoved := true, live := live }

/-- C5 scenario main tree: root 0 with children 1 (which owns 3) and 2. -/
def c5Tree : WTree :=
  WTree.wnode 0
    (WForest.cons (WTree.wnode 1 (WForest.cons (WTree.wnode 3 WForest.nil) WForest.nil))
      (WForest.cons (WTree.wnode 2 WForest.nil) WForest.nil))

/-- C5 scenario order tree: 1 and 2 are order-children of 0. -/
def c5Ot : OrderTree :=
  { parentO := fun n => if n == 1 || n == 2 then some 0 else none
  , childrenO := fun n => if n == 0 then [1, 2] else [] }

/-- C5 scenario KChildren components: widget 3 declares entity 2 as a child value. -/
def c5Kch : Nat → List Nat := fun n => if n == 3 then [2] else []

/-! ## Style cascade (calculate_nodes, calculate_nodes.rs 16-216) -/

/-- A single style property: Default, Inherit, or a concrete value (StyleProp). -/
inductive SProp where
  | default
  | inherit
  | value (v : Nat)
deriving DecidableEq, Repr

/-- A style with two representative properties. -/
structure StyleM where
  color : SProp
  width : SProp
deriving DecidableEq, Repr

/-- Fixed initial values (KStyle::initial, from the unpackaged styles module). -/
def initialStyles : StyleM := { color := SProp.value 10, width := SProp.value 20 }

/-- The default_styles fallback of calculate_nodes (calculate_nodes.rs 31-34),
restricted to the modelled properties. -/
def defaultStylesM : StyleM := { color := SProp.default, width := SProp.default }

/-- Modelled from the spec: KStyle::apply with KStyle::initial (the styles module is
not packaged) — any property still Default takes that property's fixed initial
value. -/
def applyInitial (s : StyleM) : StyleM :=
  { color := if s.color = SProp.default then initialStyles.color else s.color
  , width := if s.width = SProp.default then initialStyles.width else s.width }

/-- Modelled from the spec: KStyle::inherit (the styles module is not packaged) — any
property marked Inherited copies the corresponding property of the supplied parent
styles, whatever state that property is in. -/
def inheritFill (s parent : StyleM) : StyleM :=
  { color := if s.color = SProp.inherit then parent.color else s.color
  , width := if s.width = SProp.inherit then parent.width else s.width }

/-- Inputs of one calculate_nodes pass: tree parent pointers, the authored
ComputedStyles component per entity, and the previous frame's resolved Node styles
per entity. -/
structure CascadeInput where
  parentOf : Nat → Option Nat
  authored : Nat → Option StyleM
  prevResolved : Nat → Option StyleM

/-- Lookup in the accumulated new_nodes association list. -/
def lookupA (acc : List (Nat × StyleM)) (e : Nat) : Option StyleM :=
  (acc.find? fun q => q.1 == e).map fun q => q.2

/-- The parent-styles selection of calculate_nodes (calculate_nodes.rs 58-70), in
source order: a node already resolved this pass, else the previous frame's resolved
node styles, else the parent's raw authored ComputedStyles, else default styles. -/
def parentStylesFor (inp : CascadeInput) (acc : List (Nat × StyleM)) (e : Nat) : StyleM :=
  match inp.parentOf e with
  | some p =>
    match lookupA acc p with
    | some r => r
    | none =>
      match inp.prevResolved p with
      | some r => r
      | none =>
        match inp.authored p with
        | some raw => raw
        | none => defaultStylesM
  | none => defaultStylesM

/-- Resolution of one dirty entity (calculate_nodes.rs 88-93): take the authored
styles (default styles when the component is missing, 50-52), fill initial values for
Default properties, then fill Inherited properties from the selected parent styles. -/
def resolveOne (inp : CascadeInput) (acc : List (Nat × StyleM)) (e : Nat) : StyleM :=
  inheritFill (applyInitial ((inp.authored e).getD defaultStylesM)) (parentStylesFor inp acc e)

/-- The dirty-entity loop of calculate_nodes (calculate_nodes.rs 44-202): entities are
processed in order, each resolution appended to new_nodes. -/
def resolvePassAux (inp : CascadeInput) : List Nat → List (Nat × StyleM) → List (Nat × StyleM)
  | [], acc => acc
  | e :: rest, acc => resolvePassAux inp rest (acc ++ [(e, resolveOne inp acc e)])

/-- Ascending insertion into a sorted list. -/
def insertSorted (x : Nat) : List Nat → List Nat
  | [] => [x]
  | y :: r => if x ≤ y then x :: y :: r else y :: insertSorted x r

/-- The dirty-entity ordering of calculate_nodes (calculate_nodes.rs 41-42): sorted
ascending by entity index, not by tree depth. -/
def sortByIndex (l : List Nat) : List Nat := l.foldr insertSorted []

/-- One full calculate_nodes style pass over the dirty set. -/
def calculate_nodes_pass (inp : CascadeInput) (dirty : List Nat) : List (Nat × StyleM) :=
  resolvePassAux inp (sortByIndex dirty) []

/-- C4 scenario: entity 1 is the child (color authored Inherit), entity 2 its parent
(color authored Default, never resolved before); both are dirty, and entity order
processes the child first. -/
def c4Inp : CascadeInput :=
  { parentOf := fun e => if e == 1 then some 2 else none
  , authored := fun e =>
      if e == 1 then some { color := SProp.inherit, width := SProp.value 5 }
      else if e == 2 then some { color := SProp.default, width := SProp.value 7 }
      else none
  , prevResolved := fun _ => none }

/-! ## Widget system registry dispatch (update_widget, context.rs 1347-1355) -/

/-- A registered update/render system pair, abstracted to their boolean results. -/
structure WidgetSystemPair where
  updateSys : Nat → Bool
  renderSys : Nat → Bool

/-- Fatal errors of the dispatch path. -/
inductive KayakDispatchError where
  | configurationError (widgetType : String)
deriving DecidableEq

/-- Registry lookup (the `systems.get_mut(&widget_type)` of context.rs 1347). -/
def lookupSystems (systems : List (String × WidgetSystemPair)) (name : String) :
    Option WidgetSystemPair :=
  (systems.find? fun q => q.1 == name).map fun q => q.2

/-- Shallow embedding of the dispatch in update_widget (context.rs 1347-1465): the
systems map is consulted for the widget's type name before anything runs; a missing
entry panics immediately (1349-1354), modelled as a fatal error value; otherwise the
update system runs, and on true the render system runs, yielding
(should_rerender, should_update_children). -/
def update_widget_dispatch (systems : List (String × WidgetSystemPair)) (name : String)
    (e : Nat) : Except KayakDispatchError (Bool × Bool) :=
  match lookupSystems systems name with
  | none => Except.error (KayakDispatchError.configurationError name)
  | some sys =>
    if sys.updateSys e then Except.ok (true, sys.renderSys e)
    else Except.ok (false, false)

/-! ## Per-tick layout iteration (calculate_ui, context.rs 1530-1582) -/

/-- Shallow embedding of the per-root loop of calculate_ui (context.rs 1552-1559):
`for _ in 0..2`, each iteration running the node system, then the layout system, then
the layout event dispatch, threading the context. -/
def calculate_ui {σ : Type} (nodeSys layoutSys layoutDispatch : σ → σ) (ctx : σ) : σ :=
  (List.range 2).foldl (fun c _ => layoutDispatch (layoutSys (nodeSys c))) ctx

/-! ## Text measurement wrap width (create_primitive, calculate_nodes.rs 298-331) -/

/-- Shallow embedding of the max_size computation of create_primitive
(calculate_nodes.rs 306-314): the measurement box is the reference ancestor's layout
minus its borders; when word-wrap is disabled the width component is overwritten with
the 100000 sentinel. -/
def create_primitive_text_max_size (parentWidth parentHeight borderX borderY : ℚ)
    (wordWrap : Bool) : ℚ × ℚ :=
  if !wordWrap then (100000, parentHeight - borderY)
  else (parentWidth - borderX, parentHeight - borderY)

/-- The measurement call (calculate_nodes.rs 331): the external font.measure applied
to the computed max_size (the shaper itself is an external collaborator). -/
def create_primitive_measure (measure : ℚ × ℚ → ℚ × ℚ)
    (parentWidth parentHeight borderX borderY : ℚ) (wordWrap : Bool) : ℚ × ℚ :=
  measure (create_primitive_text_max_size parentWidth parentHeight borderX borderY wordWrap)

/-- Accumulated new_nodes used by the first branch of the C4 witness. -/
def c4AccW : List (Nat × StyleM) := [(2, { color := SProp.value 3, width := SProp.value 4 })]


/-! ## Helper lemmas -/

theorem layersOf_append (a b : List Prim) : layersOf (a ++ b) = layersOf a ++ layersOf b := by
  simp [layersOf]

theorem layersOf_clipReset (pc cc : Option Nat) : layersOf (clipResetPrims pc cc) = [] := by
  cases pc <;> cases cc <;> simp [clipResetPrims, layersOf]

theorem layersOf_self (b : Bool) (i c : Nat) :
    layersOf (if b then [Prim.widget i c] else []) = [] := by
  cases b <;> simp [layersOf]

mutual
theorem recurse_node_counter (maxL : Nat) (n : KNode) (pc : Option Nat) (cur total : Nat) :
    total ≤ (recurse_node_tree_to_build_primitives2 maxL n pc cur total).2.2 ∧
    layersOf (recurse_node_tree_to_build_primitives2 maxL n pc cur total).1 =
      List.range' (total + 1)
        ((recurse_node_tree_to_build_primitives2 maxL n pc cur total).2.2 - total) := by
  cases n with
  | node i o z hl em clip cs =>
    rw [recurse_node_tree_to_build_primitives2]
    by_cases h1 : o < (1 : ℚ)/1000
    · rw [if_pos h1]
      exact ⟨Nat.le_refl _, by simp [layersOf]⟩
    · rw [if_neg h1]
      by_cases h2 : hl = false
      · rw [if_pos h2]
        exact ⟨Nat.le_refl _, by simp [layersOf]⟩
      · rw [if_neg h2]
        by_cases h3 : o < 1
        · rw [if_pos h3]
          by_cases h4 : maxL ≤ total + 1
          · rw [if_pos h4]
            exact ⟨Nat.le_refl _, by simp [layersOf_self]⟩
          · rw [if_neg h4]
            obtain ⟨ih1, ih2⟩ := recurse_children_counter maxL cs (updClip clip pc) (total + 1)
              (total + 1) (updClip clip pc)
            refine ⟨by simpa using le_trans (Nat.le_succ total) ih1, ?_⟩
            simp only [layersOf_append, layersOf_self, List.nil_append]
            have hop : layersOf [Prim.opacityLayer (total + 1)] = [total + 1] := by
              simp [layersOf]
            have hdr : layersOf [Prim.drawOpacityLayer (total + 1) o] = [] := by
              simp [layersOf]
            rw [hop, hdr, ih2, List.append_nil]
            have h8 : (recurse_children_to_build_primitives2 maxL cs (updClip clip pc)
                (total + 1) (total + 1) (updClip clip pc)).2.2 - total
                = ((recurse_children_to_build_primitives2 maxL cs (updClip clip pc)
                (total + 1) (total + 1) (updClip clip pc)).2.2 - (total + 1)) + 1 := by omega
            rw [h8, List.range'_succ]
            simp
        · rw [if_neg h3]
          obtain ⟨ih1, ih2⟩ := recurse_children_counter maxL cs (updClip clip pc) cur total
            (updClip clip pc)
          refine ⟨by simpa using ih1, ?_⟩
          simp only [layersOf_append, layersOf_self, List.nil_append]
          exact ih2

theorem recurse_children_counter (maxL : Nat) (f : KForest) (pc : Option Nat)
    (cur total : Nat) (parentClip : Option Nat) :
    total ≤ (recurse_children_to_build_primitives2 maxL f pc cur total parentClip).2.2 ∧
    layersOf (recurse_children_to_build_primitives2 maxL f pc cur total parentClip).1 =
      List.range' (total + 1)
        ((recurse_children_to_build_primitives2 maxL f pc cur total parentClip).2.2 - total) := by
  cases f with
  | nil =>
    rw [recurse_children_to_build_primitives2]
    exact ⟨Nat.le_refl _, by simp [layersOf]⟩
  | cons c rest =>
    rw [recurse_children_to_build_primitives2]
    obtain ⟨ihA, ihB⟩ := recurse_node_counter maxL c pc cur total
    obtain ⟨ihC, ihD⟩ := recurse_children_counter maxL rest
      (recurse_node_tree_to_build_primitives2 maxL c pc cur total).2.1 cur
      (recurse_node_tree_to_build_primitives2 maxL c pc cur total).2.2 parentClip
    refine ⟨by simpa using le_trans ihA ihC, ?_⟩
    simp only [layersOf_append, layersOf_clipReset, List.append_nil]
    rw [ihB, ihD]
    have e1 : (recurse_node_tree_to_build_primitives2 maxL c pc cur total).2.2 + 1
        = (total + 1)
          + ((recurse_node_tree_to_build_primitives2 maxL c pc cur total).2.2 - total) := by
      omega
    rw [e1, List.range'_append_1]
    congr 1
    omega
end

theorem mem_marks_foldr (l : List WTree) (gc : Nat → Bool) (d : Nat) :
    (d ∈ l.foldr (fun n acc => if gc (rootId n) then childIds n ++ acc else acc) []) ↔
      ∃ s ∈ l, gc (rootId s) = true ∧ d ∈ childIds s := by
  induction l with
  | nil => simp
  | cons h t ih =>
    by_cases hg : gc (rootId h) = true
    · simp [hg, ih]
    · simp [hg, ih]

theorem deleted_still_referenced_iff (mt : WTree) (ot : OrderTree) (kch : Nat → List Nat)
    (e : Nat) :
    deleted_still_referenced mt ot kch e = true ↔
      ∃ p, ot.parentO e = some p ∧
        ∃ s ∈ ot.childrenO p, ∃ c ∈ downIterIds mt s, e ∈ kch c := by
  unfold deleted_still_referenced
  cases h : ot.parentO e with
  | none => simp
  | some p => simp [List.any_eq_true]

/-! ## Claim theorems -/

/-- C9: a node whose opacity is below the 0.001 epsilon contributes no primitives at
all — neither its own nor any of its descendants' — and leaves the clip and the layer
counter untouched. -/
theorem transparent_node_contributes_nothing (maxL : Nat) (n : KNode)
    (pc : Option Nat) (cur total : Nat) (h : n.opacity < (1 : ℚ)/1000) :
    recurse_node_tree_to_build_primitives2 maxL n pc cur total = ([], pc, total) := by
  cases n with
  | node i o z hl em clip cs =>
    have ho : o < (1 : ℚ)/1000 := by simpa [KNode.opacity] using h
    rw [recurse_node_tree_to_build_primitives2, if_pos ho]

/-- Witness for C9: a fully transparent node with an opaque child emits nothing. -/
theorem transparent_node_contributes_nothing_w :
    recurse_node_tree_to_build_primitives2 8 c9Node none 0 0 = ([], none, 0) :=
  transparent_node_contributes_nothing 8 c9Node none 0 0
    (by norm_num [c9Node, KNode.opacity])

/-- C10: within one extraction walk the opacity-layer counter is monotone
non-decreasing and the layer indices allocated in a subtree are exactly the fresh
strictly increasing interval total+1, ..., final total — nothing is ever reclaimed
when a translucent subtree closes, so the budget is consumed cumulatively. -/
theorem opacity_layer_counter_cumulative (maxL : Nat) (n : KNode)
    (pc : Option Nat) (cur total : Nat) :
    total ≤ (recurse_node_tree_to_build_primitives2 maxL n pc cur total).2.2 ∧
    layersOf (recurse_node_tree_to_build_primitives2 maxL n pc cur total).1 =
      List.range' (total + 1)
        ((recurse_node_tree_to_build_primitives2 maxL n pc cur total).2.2 - total) :=
  recurse_node_counter maxL n pc cur total

/-- C1 counterexample: with the maximum set to 2, in a frame whose translucent
subtrees are plain siblings (never more than one simultaneously open layer), the
second translucent sibling (node 3) still emits its own quad but its child (node 4)
contributes nothing and no composite is emitted — refuting both that the limit is on
concurrently open layers and that an over-budget subtree contributes zero
primitives. -/
theorem opacity_layer_concurrency_cex :
    (recurse_node_tree_to_build_primitives2 2 c1Tree none 0 0).1 =
      [Prim.widget 0 0, Prim.widget 1 0, Prim.opacityLayer 1, Prim.widget 2 1,
       Prim.drawOpacityLayer 1 (1/2), Prim.widget 3 0] ∧
    4 ∉ widgetsOf (recurse_node_tree_to_build_primitives2 2 c1Tree none 0 0).1 ∧
    3 ∈ widgetsOf (recurse_node_tree_to_build_primitives2 2 c1Tree none 0 0).1 := by
  have h : (recurse_node_tree_to_build_primitives2 2 c1Tree none 0 0).1 =
      [Prim.widget 0 0, Prim.widget 1 0, Prim.opacityLayer 1, Prim.widget 2 1,
       Prim.drawOpacityLayer 1 (1/2), Prim.widget 3 0] := by
    norm_num [recurse_node_tree_to_build_primitives2, recurse_children_to_build_primitives2,
      c1Tree, exNode, updClip, clipResetPrims]
  refine ⟨h, ?_, ?_⟩ <;> rw [h] <;> decide

/-- C1 amended: the opacity-layer budget is cumulative across the walk; a translucent
node (epsilon ≤ opacity < 1) with a layout that is reached when total+1 has already
reached the maximum emits exactly its own extract quads — no OpacityLayer, no
composite, none of its descendants' primitives — and leaves the counter and clip
unchanged, regardless of how the translucent nesting is arranged. -/
theorem opacity_budget_exhausted_emits_only_self (maxL i : Nat) (o z : ℚ)
    (em : Bool) (clip : Option Nat) (cs : KForest) (pc : Option Nat) (cur total : Nat)
    (h1 : ¬ o < (1 : ℚ)/1000) (h2 : o < 1) (h3 : maxL ≤ total + 1) :
    recurse_node_tree_to_build_primitives2 maxL (KNode.node i o z true em clip cs) pc cur total
      = ((if em then [Prim.widget i cur] else []), pc, total) := by
  rw [recurse_node_tree_to_build_primitives2, if_neg h1, if_neg (by simp), if_pos h2,
    if_pos h3]

/-- Witness for the amended C1 theorem: with maximum 1, the very first translucent
node is over budget and emits only its own quad. -/
theorem opacity_budget_exhausted_emits_only_self_w :
    recurse_node_tree_to_build_primitives2 1 (KNode.node 7 (1/2) 0 true true none c1wForest)
        none 0 0
      = ([Prim.widget 7 0], none, 0) := by
  have h := opacity_budget_exhausted_emits_only_self 1 7 (1/2) 0 true none c1wForest none 0 0
    (by norm_num) (by norm_num) (by norm_num)
  simpa using h



/-- C2 counterexample: the root's update predicate returns false, yet its child is
still updated, rendered, and diff-applied by the same walk step — the subtree is not
untouched. -/
theorem unchanged_subtree_untouched_cex :
    c2Pred 0 = false ∧
    WalkEvent.rendered 1 ∈ update_widget_and_descend c2Pred renderChAll c2Tree ∧
    WalkEvent.diffApplied 1 ∈ update_widget_and_descend c2Pred renderChAll c2Tree := by
  decide

/-- C2 amended: when the update predicate returns false the node's own render and
child diff are skipped (its step contributes only the updated-false event), but the
walk still descends into the node's current children, each of which is processed
independently. -/
theorem unchanged_node_still_descends (pred renderCh : Nat → Bool) (i : Nat) (cs : WForest)
    (h : pred i = false) :
    update_widget_and_descend pred renderCh (WTree.wnode i cs)
      = WalkEvent.updated i false :: update_widgets pred renderCh cs := by
  rw [update_widget_and_descend, if_neg (by simp [h])]
  simp

/-- Witness for the amended C2 theorem at the concrete scenario. -/
theorem unchanged_node_still_descends_w :
    update_widget_and_descend c2Pred renderChAll c2Tree
      = WalkEvent.updated 0 false :: update_widgets c2Pred renderChAll c2Forest :=
  unchanged_node_still_descends c2Pred renderChAll 0 c2Forest (by decide)

/-- C3 counterexample: in the chain 0 → 1 → 2 with only the root's Rect changed, the
grandchild 2 is a descendant of 0 but is not marked dirty; only the direct child 1
is. -/
theorem rect_change_marks_all_descendants_cex :
    c3gc 0 = true ∧ 2 ∈ descendantsOf c3Tree 0 ∧
    2 ∉ calculate_layout_dirty_marks c3Tree c3gc ∧
    1 ∈ calculate_layout_dirty_marks c3Tree c3gc := by
  decide

/-- C3 amended: the dirty marks produced after a layout pass are exactly the direct
children of the nodes whose geometry changed — a node is marked iff some
geometry-changed node has it as a direct child. -/
theorem layout_dirty_marks_direct_children (t : WTree) (gc : Nat → Bool) (d : Nat) :
    d ∈ calculate_layout_dirty_marks t gc ↔
      ∃ s ∈ allSubtrees t, gc (rootId s) = true ∧ d ∈ childIds s :=
  mem_marks_foldr (allSubtrees t) gc d

/-- Witness for the amended C3 theorem at the concrete scenario. -/
theorem layout_dirty_marks_direct_children_w :
    (1 ∈ calculate_layout_dirty_marks c3Tree c3gc) ↔
      ∃ s ∈ allSubtrees c3Tree, c3gc (rootId s) = true ∧ 1 ∈ childIds s :=
  layout_dirty_marks_direct_children c3Tree c3gc 1

/-- C4 counterexample: child 1 (color authored Inherit) is processed before its
parent 2 (entity-index order); the parent has no resolved style yet, so the child's
inherited color receives the parent's raw authored value Default — not the parent's
resolved color, which becomes the initial value 10 later in the same pass. -/
theorem inherit_raw_ancestor_cex :
    lookupA (calculate_nodes_pass c4Inp [2, 1]) 1
        = some { color := SProp.default, width := SProp.value 5 } ∧
    lookupA (calculate_nodes_pass c4Inp [2, 1]) 2
        = some { color := SProp.value 10, width := SProp.value 7 } := by
  decide

/-- C4 amended: resolution applies initial-fill and then inherit-fill in that order,
and an Inherited property receives the parent's already-resolved value when the
parent was resolved earlier this pass; when it was not and no previous-frame resolved
style exists, the property receives the parent's raw authored style instead. -/
theorem inherit_fill_parent_source (inp : CascadeInput) (acc : List (Nat × StyleM))
    (e p : Nat) (hp : inp.parentOf e = some p)
    (hc : ((inp.authored e).getD defaultStylesM).color = SProp.inherit) :
    (∀ r, lookupA acc p = some r → (resolveOne inp acc e).color = r.color) ∧
    (lookupA acc p = none → inp.prevResolved p = none →
      ∀ raw, inp.authored p = some raw → (resolveOne inp acc e).color = raw.color) := by
  constructor
  · intro r hr
    simp [resolveOne, parentStylesFor, hp, hr, inheritFill, applyInitial, hc]
  · intro h1 h2 raw h3
    simp [resolveOne, parentStylesFor, hp, h1, h2, h3, inheritFill, applyInitial, hc]

/-- Witness for the amended C4 theorem: with the parent resolved this pass the child
inherits the resolved color 3; with nothing resolved the child inherits the parent's
raw authored Default. -/
theorem inherit_fill_parent_source_w :
    (resolveOne c4Inp c4AccW 1).color = SProp.value 3 ∧
    (resolveOne c4Inp [] 1).color = SProp.default := by
  constructor
  · exact (inherit_fill_parent_source c4Inp c4AccW 1 2 (by decide) (by decide)).1
      { color := SProp.value 3, width := SProp.value 4 } (by decide)
  · exact (inherit_fill_parent_source c4Inp [] 1 2 (by decide) (by decide)).2
      (by decide) (by decide) { color := SProp.default, width := SProp.value 7 } (by decide)

/-- C5 counterexample: entity 1 is Deleted, is referenced in nobody's KChildren, and
has the descendant 3 in the main tree; the Deleted branch despawns only entity 1
itself (despawn_list holds just (0, 1)) and its descendant 3 stays live — refuting
the claim's conclusion that the Deleted node's subtree is despawned. -/
theorem deleted_subtree_despawn_cex :
    deleted_still_referenced c5Tree c5Ot c5Kch 1 = false ∧
    3 ∈ descendantsOf c5Tree 1 ∧
    (process_deleted_change c5Tree c5Ot c5Kch [0, 1, 2, 3] 1).despawnList = [(0, 1)] ∧
    3 ∈ (process_deleted_change c5Tree c5Ot c5Kch [0, 1, 2, 3] 1).live := by
  decide

/-- C5 amended: a Deleted entity is removed from the order tree (the merge of the
diff removes it from the main Tree) and the entity itself is despawned
non-recursively — its descendants are not despawned by this step and remain live —
unless it is still reachable as a literal child value in the KChildren of some node
in an order-tree sibling's subtree, in which case nothing is despawned, nothing is
removed, and the entity stays live. -/
theorem deleted_despawn_unless_child_ref (mt : WTree) (ot : OrderTree)
    (kch : Nat → List Nat) (live : List Nat) (e : Nat) :
    ((∃ p, ot.parentO e = some p ∧
        ∃ s ∈ ot.childrenO p, ∃ c ∈ downIterIds mt s, e ∈ kch c) →
      process_deleted_change mt ot kch live e
        = { despawnList := [], orderRemoved := false, live := live }) ∧
    ((¬ ∃ p, ot.parentO e = some p ∧
        ∃ s ∈ ot.childrenO p, ∃ c ∈ downIterIds mt s, e ∈ kch c) →
      ∀ q, treeParentOf mt e = some q →
        process_deleted_change mt ot kch live e
          = { despawnList := [(q, e)], orderRemoved := true
            , live := live.filter fun x => !(x == e) }) := by
  constructor
  · intro hcond
    have hb : deleted_still_referenced mt ot kch e = true :=
      (deleted_still_referenced_iff mt ot kch e).mpr hcond
    simp [process_deleted_change, hb]
  · intro hcond q hq
    have hb : ¬ deleted_still_referenced mt ot kch e = true :=
      fun hc => hcond ((deleted_still_referenced_iff mt ot kch e).mp hc)
    simp [process_deleted_change, hb, hq]

/-- Witness for C5: entity 2 is held in widget 3's KChildren (3 lives in sibling 1's
subtree), so its deletion is suppressed and it stays live; entity 1 is referenced
nowhere, so it is despawned and removed from the order tree. -/
theorem deleted_despawn_unless_child_ref_w :
    process_deleted_change c5Tree c5Ot c5Kch [0, 1, 2, 3] 2
        = { despawnList := [], orderRemoved := false, live := [0, 1, 2, 3] } ∧
    process_deleted_change c5Tree c5Ot c5Kch [0, 1, 2, 3] 1
        = { despawnList := [(0, 1)], orderRemoved := true, live := [0, 2, 3] } := by
  constructor
  · exact (deleted_despawn_unless_child_ref c5Tree c5Ot c5Kch [0, 1, 2, 3] 2).1
      ⟨0, rfl, 1, by decide, 3, by decide, by decide⟩
  · have hnot : ¬ ∃ p, c5Ot.parentO 1 = some p ∧
        ∃ s ∈ c5Ot.childrenO p, ∃ c ∈ downIterIds c5Tree s, 1 ∈ c5Kch c := by
      intro hc
      have hb := (deleted_still_referenced_iff c5Tree c5Ot c5Kch 1).mpr hc
      revert hb
      decide
    have h3 := (deleted_despawn_unless_child_ref c5Tree c5Ot c5Kch [0, 1, 2, 3] 1).2
      hnot 0 (by decide)
    exact h3.trans (by decide)

/-- C6: dispatching a widget whose type name has no registered update/render pair
fails with a ConfigurationError at the very lookup, and this is exactly the situation
in which the dispatch fails — and conversely a registered pair never produces it. -/
theorem unregistered_widget_type_fatal (systems : List (String × WidgetSystemPair))
    (name : String) (e : Nat) :
    update_widget_dispatch systems name e
        = Except.error (KayakDispatchError.configurationError name)
      ↔ lookupSystems systems name = none := by
  unfold update_widget_dispatch
  cases h : lookupSystems systems name with
  | none => simp
  | some sys => by_cases hu : sys.updateSys e <;> simp [hu]

/-- Witness for C6: the empty registry makes any dispatch fail fatally. -/
theorem unregistered_widget_type_fatal_w :
    update_widget_dispatch [] "KApp" 0
      = Except.error (KayakDispatchError.configurationError "KApp") :=
  (unregistered_widget_type_fatal [] "KApp" 0).mpr rfl

/-- C7: the per-root loop of calculate_ui runs the node-calculation, layout, and
layout-dispatch round exactly twice, whatever the systems do — in particular
regardless of whether the first round already converged. -/
theorem calculate_ui_runs_two_rounds {σ : Type} (nodeSys layoutSys layoutDispatch : σ → σ)
    (ctx : σ) :
    calculate_ui nodeSys layoutSys layoutDispatch ctx
      = layoutDispatch (layoutSys (nodeSys (layoutDispatch (layoutSys (nodeSys ctx))))) :=
  rfl

/-- C8: with word-wrap disabled the wrap width handed to text measurement is the
fixed 100000 sentinel whatever the reference ancestor's width is, so the measured
size cannot depend on — in particular cannot be clamped to — the ancestor's width. -/
theorem no_wrap_text_width_unbounded (measure : ℚ × ℚ → ℚ × ℚ)
    (pw pw' ph bx b2 : ℚ) :
    (create_primitive_text_max_size pw ph bx b2 false).1 = 100000 ∧
    create_primitive_measure measure pw ph bx b2 false
      = create_primitive_measure measure pw' ph bx b2 false := by
  constructor <;> simp [create_primitive_measure, create_primitive_text_max_size]


end Kayak
